import Mathlib

/-!
# elq: a thin wrapper over a document-search client

Shallow embedding of `elq.go`.

* Go pointers (`*Elastic`, `*elastic.Client`, the `*IndexResponse` and `*GetResult` a
  request hands back) are `Option` values: `none` is `nil`.
* Go's `error` is `Option Error`: `none` is `nil`.
* A nil dereference is the outcome `Outcome.panic`.
* The client library (`github.com/olivere/elastic`) and `encoding/json` are not part of
  the repository: they are parameters (`ClientLib`, `Json`).  The library works on an
  explicit server state `σ`; every request the wrapper hands to the library is appended
  to the trace `World.calls`.
-/

namespace Elq

/-! ## Data model -/

/-- The `context.Context` held by a connection. -/
structure Context where
  key : Nat
  deriving DecidableEq, Repr

/-- The pointee of `*elastic.Client`: the handle to the remote service. -/
structure Client where
  url : String
  deriving DecidableEq, Repr

/-- Go: `type Elastic struct { ctx context.Context; client *elastic.Client }`. -/
structure Elastic where
  ctx : Option Context
  client : Option Client
  deriving DecidableEq, Repr

/-- Go: `type ElasticIndex struct { es *Elastic; name string }`. -/
structure ElasticIndex where
  es : Option Elastic
  name : String
  deriving DecidableEq, Repr

/-- An error value made outside this package (client library, `encoding/json`). -/
structure LibError where
  code : Nat
  text : String
  deriving DecidableEq, Repr

/-- The values an `error` can hold: the two package-level sentinels
`ErrUnInitializedIndex`, `ErrUnInitializedClient`, or an error made elsewhere. -/
inductive Error where
  | ErrUnInitializedIndex
  | ErrUnInitializedClient
  | foreign (e : LibError)
  deriving DecidableEq, Repr

/-- The bytes of a JSON text (`json.RawMessage`). -/
abbrev RawMessage := String

/-- The part of `elastic.IndexResponse` the wrapper reads. -/
structure IndexResponse where
  Id : String
  deriving DecidableEq, Repr

/-- The part of `elastic.GetResult` the wrapper reads. -/
structure GetResult where
  Found : Bool
  Source : RawMessage
  deriving DecidableEq, Repr

/-- How a call ends: it returns a value, or the goroutine panics. -/
inductive Outcome (α : Type) where
  | panic : Outcome α
  | ret : α → Outcome α
  deriving DecidableEq, Repr

/-- A request handed to the client library. -/
inductive Call (Doc : Type) where
  | createIndex (name : String) (body : Option String)
  | indexNames
  | index (index : String) (id : Option String) (body : Doc)
  | get (index : String) (id : String)
  deriving DecidableEq, Repr

/-- The world outside the wrapper: the server's state and the requests issued so far. -/
structure World (σ Doc : Type) where
  server : σ
  calls : List (Call Doc)

/-- The world after request `c` has been issued and the server has moved to `s`. -/
def World.issue {σ Doc : Type} (w : World σ Doc) (c : Call Doc) (s : σ) : World σ Doc :=
  { server := s, calls := w.calls ++ [c] }

/-- The client library, as far as the wrapper uses it.  Every request takes the receiver
`*elastic.Client` (possibly nil) and the server state, and yields an outcome and the next
server state.
* `createIndex c ctx name body`: `c.CreateIndex(name)[.BodyString(body)].Do(ctx)`, its
  error (the wrapper drops the result);
* `indexNames c`: `c.IndexNames()`;
* `index c ctx index id body`: `c.Index().Index(index)[.Id(id)].BodyJson(body).Do(ctx)`;
* `get c ctx index id`: `c.Get().Index(index).Id(id).Do(ctx)`;
* `isNotFound e`: `elastic.IsNotFound(e)` on a non-nil error. -/
structure ClientLib (σ Doc : Type) where
  createIndex : Option Client → Option Context → String → Option String → σ →
    Outcome (Option LibError) × σ
  indexNames : Option Client → σ → Outcome (List String × Option LibError) × σ
  index : Option Client → Option Context → String → Option String → Doc → σ →
    Outcome (Option IndexResponse × Option LibError) × σ
  get : Option Client → Option Context → String → String → σ →
    Outcome (Option GetResult × Option LibError) × σ
  isNotFound : LibError → Bool

/-- The JSON codec for documents.  `Unmarshal data out` is `json.Unmarshal(data, out)`:
the document left behind `out` and the error. -/
structure Json (Doc : Type) where
  Marshal : Doc → Option RawMessage
  Unmarshal : RawMessage → Doc → Doc × Option LibError

/-- Go: `elastic.IsNotFound(err)`; a nil error is not a not-found error. -/
def IsNotFound {σ Doc : Type} (lib : ClientLib σ Doc) : Option LibError → Bool
  | none => false
  | some e => lib.isNotFound e

/-! ## Connection operations -/

/-- Go: `func (es *Elastic) ForIndex(name string) ElasticIndex`. -/
def ForIndex (es : Option Elastic) (name : String) : ElasticIndex :=
  { es := es, name := name }

/-- Go: `func (es *Elastic) NewIndexMapped(name string, mapping string) (ElasticIndex, error)`. -/
def NewIndexMapped {σ Doc : Type} (lib : ClientLib σ Doc) (es : Option Elastic)
    (name mapping : String) (w : World σ Doc) :
    Outcome (ElasticIndex × Option Error) × World σ Doc :=
  match es with
  | none => (.panic, w)
  | some e =>
    match e.client with
    | none => (.ret ({ es := none, name := "" }, some .ErrUnInitializedClient), w)
    | some c =>
      match lib.createIndex (some c) e.ctx name (some mapping) w.server with
      | (.panic, s) => (.panic, w.issue (.createIndex name (some mapping)) s)
      | (.ret (some err), s) =>
        (.ret ({ es := none, name := "" }, some (.foreign err)),
          w.issue (.createIndex name (some mapping)) s)
      | (.ret none, s) =>
        (.ret ({ es := some e, name := name }, none),
          w.issue (.createIndex name (some mapping)) s)

/-- Go: `func (es *Elastic) NewIndex(name string) (ElasticIndex, error)`. -/
def NewIndex {σ Doc : Type} (lib : ClientLib σ Doc) (es : Option Elastic)
    (name : String) (w : World σ Doc) :
    Outcome (ElasticIndex × Option Error) × World σ Doc :=
  match es with
  | none => (.panic, w)
  | some e =>
    match e.client with
    | none => (.ret ({ es := none, name := "" }, some .ErrUnInitializedClient), w)
    | some c =>
      match lib.createIndex (some c) e.ctx name none w.server with
      | (.panic, s) => (.panic, w.issue (.createIndex name none) s)
      | (.ret (some err), s) =>
        (.ret ({ es := none, name := "" }, some (.foreign err)),
          w.issue (.createIndex name none) s)
      | (.ret none, s) =>
        (.ret ({ es := some e, name := name }, none), w.issue (.createIndex name none) s)

/-- The loop `for _, aName := range names { if aName == name { return ... } }`:
`true` when it returns from inside, `false` when it runs to the end. -/
def nameListed (name : String) : List String → Bool
  | [] => false
  | aName :: rest => if aName = name then true else nameListed name rest

/-- Go: `func (es *Elastic) GetOrCreateIndex(name string) (ElasticIndex, error)`. -/
def GetOrCreateIndex {σ Doc : Type} (lib : ClientLib σ Doc) (es : Option Elastic)
    (name : String) (w : World σ Doc) :
    Outcome (ElasticIndex × Option Error) × World σ Doc :=
  match es with
  | none => (.panic, w)
  | some e =>
    match e.client with
    | none => (.ret ({ es := none, name := "" }, some .ErrUnInitializedClient), w)
    | some c =>
      match lib.indexNames (some c) w.server with
      | (.panic, s) => (.panic, w.issue .indexNames s)
      | (.ret (_, some err), s) =>
        (.ret ({ es := none, name := "" }, some (.foreign err)), w.issue .indexNames s)
      | (.ret (names, none), s) =>
        if nameListed name names then
          (.ret ({ es := some e, name := name }, none), w.issue .indexNames s)
        else
          NewIndex lib (some e) name (w.issue .indexNames s)

/-! ## Index operations -/

/-- Go: `func (i *ElasticIndex) PushId(id string, object interface{}) error`. -/
def PushId {σ Doc : Type} (lib : ClientLib σ Doc) (i : ElasticIndex) (id : String)
    (object : Doc) (w : World σ Doc) : Outcome (Option Error) × World σ Doc :=
  match i.es with
  | none => (.ret (some .ErrUnInitializedIndex), w)
  | some e =>
    match lib.index e.client e.ctx i.name (some id) object w.server with
    | (.panic, s) => (.panic, w.issue (.index i.name (some id) object) s)
    | (.ret (_, some err), s) =>
      (.ret (some (.foreign err)), w.issue (.index i.name (some id) object) s)
    | (.ret (_, none), s) => (.ret none, w.issue (.index i.name (some id) object) s)

/-- Go: `func (i *ElasticIndex) Push(object interface{}) (string, error)`. -/
def Push {σ Doc : Type} (lib : ClientLib σ Doc) (i : ElasticIndex)
    (object : Doc) (w : World σ Doc) : Outcome (String × Option Error) × World σ Doc :=
  match i.es with
  | none => (.ret ("", some .ErrUnInitializedIndex), w)
  | some e =>
    match lib.index e.client e.ctx i.name none object w.server with
    | (.panic, s) => (.panic, w.issue (.index i.name none object) s)
    | (.ret (_, some err), s) =>
      (.ret ("", some (.foreign err)), w.issue (.index i.name none object) s)
    | (.ret (none, none), s) => (.panic, w.issue (.index i.name none object) s)
    | (.ret (some put1, none), s) =>
      (.ret (put1.Id, none), w.issue (.index i.name none object) s)

/-- Go: `func (i *ElasticIndex) Pull(id string, object interface{}) (found bool, err error)`.
The third component is the document behind `object` when the call ends. -/
def Pull {σ Doc : Type} (lib : ClientLib σ Doc) (J : Json Doc) (i : ElasticIndex)
    (id : String) (object : Doc) (w : World σ Doc) :
    Outcome (Bool × Option Error × Doc) × World σ Doc :=
  match i.es with
  | none => (.ret (false, some .ErrUnInitializedIndex, object), w)
  | some e =>
    match lib.get e.client e.ctx i.name id w.server with
    | (.panic, s) => (.panic, w.issue (.get i.name id) s)
    | (.ret (get1, err), s) =>
      if IsNotFound lib err then
        (.ret (false, none, object), w.issue (.get i.name id) s)
      else
        match err with
        | some err => (.ret (false, some (.foreign err), object), w.issue (.get i.name id) s)
        | none =>
          match get1 with
          | none => (.panic, w.issue (.get i.name id) s)
          | some r =>
            if !r.Found then
              (.ret (false, none, object), w.issue (.get i.name id) s)
            else
              (.ret (true, (J.Unmarshal r.Source object).2.map Error.foreign,
                  (J.Unmarshal r.Source object).1), w.issue (.get i.name id) s)

/-! ## A reference model of the remote service

The round-trip and overwrite properties are stated over a server that keeps, per index
name and document id, the serialized body last indexed there, behind a client that
refuses requests lacking a required field.  The server stores the text the codec's
`Marshal` produced as it is. -/

/-- The state of the reference server: the index names in creation order, the stored
bodies keyed by index name and id, and the counter behind generated ids. -/
structure Store where
  indices : List String
  docs : List (String × String × RawMessage)
  nextId : Nat
  deriving DecidableEq, Repr

/-- The body stored under `(index, id)`, if any. -/
def lookupDoc (index id : String) : List (String × String × RawMessage) → Option RawMessage
  | [] => none
  | (i, d, b) :: rest => if i = index ∧ d = id then some b else lookupDoc index id rest

/-- Store `b` under `(index, id)`, replacing what was stored there. -/
def putDoc (index id : String) (b : RawMessage) (docs : List (String × String × RawMessage)) :
    List (String × String × RawMessage) :=
  (index, id, b) :: docs.filter (fun e => !(decide (e.1 = index ∧ e.2.1 = id)))

/-- The id the reference server generates when its counter is `n`. -/
def genId (n : Nat) : String :=
  "auto-" ++ toString n

/-- The id an index request asks for: `Id("")` is the same request as one with no id, for
which the server generates the id. -/
def requestedId : Option String → Option String
  | none => none
  | some given => if given = "" then none else some given

/-- The index names after a document has been indexed into `index`: an index that does
not exist yet is created. -/
def touchIndex (index : String) (indices : List String) : List String :=
  if index ∈ indices then indices else indices ++ [index]

/-- The reference client and server behind the wrapper.
* A request that lacks a required field is refused by the client before anything is sent:
  an empty index name in create-index, index and get requests, an empty id in get requests.
* After that check, a request through a nil handle or with a nil context panics.
* Creating an index that exists fails with a 400 error.
* Indexing stores the serialized body under the requested id, or under a generated one
  when no id (or the empty id) is requested, replacing any body stored there; a document
  that does not marshal is refused.
* A fetch of an id with no stored body fails with a 404 error, which `isNotFound`
  recognises (it recognises nothing else). -/
def storeLib {Doc : Type} (J : Json Doc) : ClientLib Store Doc where
  createIndex := fun c ctx name _ s =>
    if name = "" then (.ret (some ⟨0, "missing index name"⟩), s)
    else
      match c, ctx with
      | some _, some _ =>
        if name ∈ s.indices then (.ret (some ⟨400, "resource_already_exists_exception"⟩), s)
        else (.ret none, { s with indices := s.indices ++ [name] })
      | _, _ => (.panic, s)
  indexNames := fun c s =>
    match c with
    | none => (.panic, s)
    | some _ => (.ret (s.indices, none), s)
  index := fun c ctx index id body s =>
    if index = "" then (.ret (none, some ⟨0, "missing required fields: [Index]"⟩), s)
    else
      match c, ctx with
      | some _, some _ =>
        match J.Marshal body with
        | none => (.ret (none, some ⟨0, "json: unsupported value"⟩), s)
        | some b =>
          match requestedId id with
          | some given =>
            (.ret (some ⟨given⟩, none),
              { s with indices := touchIndex index s.indices,
                       docs := putDoc index given b s.docs })
          | none =>
            (.ret (some ⟨genId s.nextId⟩, none),
              { indices := touchIndex index s.indices,
                docs := putDoc index (genId s.nextId) b s.docs,
                nextId := s.nextId + 1 })
      | _, _ => (.panic, s)
  get := fun c ctx index id s =>
    if id = "" then
      (.ret (none, some ⟨0, if index = "" then "missing required fields: [Id Index]"
        else "missing required fields: [Id]"⟩), s)
    else if index = "" then (.ret (none, some ⟨0, "missing required fields: [Index]"⟩), s)
    else
      match c, ctx with
      | some _, some _ =>
        match lookupDoc index id s.docs with
        | none => (.ret (none, some ⟨404, "not_found"⟩), s)
        | some b => (.ret (some ⟨true, b⟩, none), s)
      | _, _ => (.panic, s)
  isNotFound := fun e => e.code = 404

/-- The JSON codec of boolean documents (output `*bool`): the texts `true` and `false`
set the document; `null` has no effect; any other text leaves the document alone and
returns an error. -/
def boolJson : Json Bool where
  Marshal := fun d => some (if d then "true" else "false")
  Unmarshal := fun data out =>
    if data = "true" then (true, none)
    else if data = "false" then (false, none)
    else if data = "null" then (out, none)
    else (out, some ⟨0, "json: cannot unmarshal into Go value of type bool"⟩)

/-- The values 0, 1 and NaN of the field of the Go document type
`struct { X float64 "json:\"x,omitempty\"" }`. -/
inductive Reading where
  | zero
  | one
  | nan
  deriving DecidableEq, Repr

/-- The JSON codec of `Reading` documents, as `encoding/json` treats the struct: a zero
field is omitted from the text, NaN is an unsupported value; on the way back a member that
is absent from the text leaves the field of the output document as it was, and so does
`null`; a text in none of these forms leaves the document alone and returns an error. -/
def readingJson : Json Reading where
  Marshal := fun d =>
    match d with
    | .zero => some "\x7b\x7d"
    | .one => some "\x7b\"x\":1\x7d"
    | .nan => none
  Unmarshal := fun data out =>
    if data = "\x7b\x7d" then (out, none)
    else if data = "\x7b\"x\":1\x7d" then (.one, none)
    else if data = "\x7b\"x\":0\x7d" then (.zero, none)
    else if data = "null" then (out, none)
    else (out, some ⟨0, "json: cannot unmarshal into Go value of type struct"⟩)

/-- A client library whose server cannot be reached: a request through a nil handle
panics, every other request fails with the same transport error, which is not a
not-found error. -/
def downLib {Doc : Type} : ClientLib Unit Doc where
  createIndex := fun c _ _ _ s =>
    match c with
    | none => (.panic, s)
    | some _ => (.ret (some ⟨0, "connection refused"⟩), s)
  indexNames := fun c s =>
    match c with
    | none => (.panic, s)
    | some _ => (.ret ([], some ⟨0, "connection refused"⟩), s)
  index := fun c _ _ _ _ s =>
    match c with
    | none => (.panic, s)
    | some _ => (.ret (none, some ⟨0, "connection refused"⟩), s)
  get := fun c _ _ _ s =>
    match c with
    | none => (.panic, s)
    | some _ => (.ret (none, some ⟨0, "connection refused"⟩), s)
  isNotFound := fun e => e.code = 404

/-- A connection as `NewElastic` builds it. -/
def sampleElastic : Elastic :=
  { ctx := some ⟨0⟩, client := some ⟨"http://1.2.3.4:9200"⟩ }

/-- A reference server that holds the index `books` with two stored bodies: the JSON
boolean `true` under `b1` and the JSON array `[1]` under `b2`. -/
def sampleStore : Store :=
  { indices := ["books"], docs := [("books", "b1", "true"), ("books", "b2", "[1]")],
    nextId := 7 }

/-- The world of boolean documents over `sampleStore` before any request. -/
def sampleWorld : World Store Bool :=
  { server := sampleStore, calls := [] }

/-- The world of `Reading` documents over a server with the empty index `levels`. -/
def readingWorld : World Store Reading :=
  { server := { indices := ["levels"], docs := [], nextId := 7 }, calls := [] }

end Elq

/-! ## Theorems -/

namespace Elq

/-- The loop over the listed names returns from inside exactly when the name occurs in
the list. -/
theorem nameListed_iff (name : String) (names : List String) :
    nameListed name names = true ↔ name ∈ names := by
  induction names with
  | nil => simp [nameListed]
  | cons a rest ih =>
    by_cases h : a = name
    · simp [nameListed, h]
    · have h2 : ¬ name = a := fun e => h e.symm
      simp [nameListed, h, h2, ih]

/-- C9: for every connection pointer (nil, zero-value or initialized) and every name,
the empty one included, `ForIndex` yields the Index Reference with exactly that name and
exactly that back-reference; it is a total function of its two arguments alone, so it
cannot fail and neither reads nor changes the world of remote calls. -/
theorem C9_ForIndex_binds_name_and_connection (es : Option Elastic) (name : String) :
    ForIndex es name = { es := es, name := name }
      ∧ (ForIndex es name).name = name
      ∧ (ForIndex es name).es = es
      ∧ (ForIndex es "").name = "" := by
  simp [ForIndex]

/-- C2: on a connection whose client handle is absent, `NewIndex`, `NewIndexMapped` and
`GetOrCreateIndex` return the zero-value Index Reference with `ErrUnInitializedClient`; on
an Index Reference whose back-reference is absent, `PushId` returns
`ErrUnInitializedIndex`, `Push` returns `("", ErrUnInitializedIndex)` and `Pull` returns
`(false, ErrUnInitializedIndex)` with the output document untouched; in all six cases the
world (server state and trace of requests) is unchanged. -/
theorem C2_sentinels_before_any_remote_call {σ Doc : Type} (lib : ClientLib σ Doc)
    (J : Json Doc) (ctx : Option Context) (name mapping indexName id : String)
    (object out : Doc) (w : World σ Doc) :
    NewIndex lib (some { ctx := ctx, client := none }) name w
        = (.ret ({ es := none, name := "" }, some .ErrUnInitializedClient), w)
      ∧ NewIndexMapped lib (some { ctx := ctx, client := none }) name mapping w
        = (.ret ({ es := none, name := "" }, some .ErrUnInitializedClient), w)
      ∧ GetOrCreateIndex lib (some { ctx := ctx, client := none }) name w
        = (.ret ({ es := none, name := "" }, some .ErrUnInitializedClient), w)
      ∧ PushId lib { es := none, name := indexName } id object w
        = (.ret (some .ErrUnInitializedIndex), w)
      ∧ Push lib { es := none, name := indexName } object w
        = (.ret ("", some .ErrUnInitializedIndex), w)
      ∧ Pull lib J { es := none, name := indexName } id out w
        = (.ret (false, some .ErrUnInitializedIndex, out), w) := by
  refine ⟨rfl, rfl, rfl, rfl, rfl, rfl⟩

/-- C1 (the code at the failing input): on the Index Reference that `ForIndex` builds
from a zero-value `Elastic` (nil context, nil client handle), `PushId`, `Push` and `Pull`
pass the `i.es == nil` guard and hand an index or get request to the client library
through the nil handle: the request is appended to the trace, the server state is the one
the library leaves, and whatever the library does, none of the three returns an
uninitialized sentinel. -/
theorem C1_zero_value_connection_reaches_library {σ Doc : Type} (lib : ClientLib σ Doc)
    (J : Json Doc) (name id : String) (object out : Doc) (w : World σ Doc) :
    ((PushId lib (ForIndex (some { ctx := none, client := none }) name) id object w).2
        = w.issue (.index name (some id) object)
            (lib.index none none name (some id) object w.server).2
      ∧ (PushId lib (ForIndex (some { ctx := none, client := none }) name) id object w).1
        ≠ .ret (some .ErrUnInitializedIndex)
      ∧ (PushId lib (ForIndex (some { ctx := none, client := none }) name) id object w).1
        ≠ .ret (some .ErrUnInitializedClient))
    ∧ ((Push lib (ForIndex (some { ctx := none, client := none }) name) object w).2
        = w.issue (.index name none object) (lib.index none none name none object w.server).2
      ∧ (Push lib (ForIndex (some { ctx := none, client := none }) name) object w).1
        ≠ .ret ("", some .ErrUnInitializedIndex)
      ∧ (Push lib (ForIndex (some { ctx := none, client := none }) name) object w).1
        ≠ .ret ("", some .ErrUnInitializedClient))
    ∧ ((Pull lib J (ForIndex (some { ctx := none, client := none }) name) id out w).2
        = w.issue (.get name id) (lib.get none none name id w.server).2
      ∧ (Pull lib J (ForIndex (some { ctx := none, client := none }) name) id out w).1
        ≠ .ret (false, some .ErrUnInitializedIndex, out)
      ∧ (Pull lib J (ForIndex (some { ctx := none, client := none }) name) id out w).1
        ≠ .ret (false, some .ErrUnInitializedClient, out)) := by
  refine ⟨?_, ?_, ?_⟩
  · simp only [PushId, ForIndex]
    rcases hl : lib.index none none name (some id) object w.server with ⟨o, s⟩
    rcases o with _ | ⟨r, e⟩
    · simp
    · cases e <;> simp
  · simp only [Push, ForIndex]
    rcases hl : lib.index none none name none object w.server with ⟨o, s⟩
    rcases o with _ | ⟨r, e⟩
    · simp
    · cases e <;> cases r <;> simp
  · simp only [Pull, ForIndex]
    rcases hl : lib.get none none name id w.server with ⟨o, s⟩
    rcases o with _ | ⟨r, e⟩
    · simp
    · cases e with
      | none =>
        cases r with
        | none => simp [IsNotFound]
        | some g => cases hf : g.Found <;> simp [IsNotFound, hf]
      | some err => cases hn : lib.isNotFound err <;> simp [IsNotFound, hn]

/-- On the reference server, whose library panics on a nil handle, the three index
operations on the reference built from a zero-value `Elastic` panic. -/
theorem zero_value_connection_panics_on_reference_server :
    (PushId (storeLib boolJson) (ForIndex (some { ctx := none, client := none }) "books")
        "b1" true sampleWorld).1 = .panic
      ∧ (Push (storeLib boolJson) (ForIndex (some { ctx := none, client := none }) "books")
        true sampleWorld).1 = .panic
      ∧ (Pull (storeLib boolJson) boolJson
        (ForIndex (some { ctx := none, client := none }) "books") "b1" false sampleWorld).1
        = .panic := by
  decide

/-- A factory (`NewIndex`, `NewIndexMapped`, `GetOrCreateIndex`) that returns a non-nil
error returns the zero-value Index Reference; one that returns a nil error returns the
reference bound to the receiver and the requested name. -/
theorem factory_result_shape {σ Doc : Type} (lib : ClientLib σ Doc) (es : Option Elastic)
    (name mapping : String) (w : World σ Doc)
    (r : Outcome (ElasticIndex × Option Error) × World σ Doc)
    (hr : r = NewIndex lib es name w ∨ r = NewIndexMapped lib es name mapping w
      ∨ r = GetOrCreateIndex lib es name w)
    (idx : ElasticIndex) (err : Option Error) (hret : r.1 = .ret (idx, err)) :
    (err ≠ none → idx = { es := none, name := "" })
      ∧ (err = none → idx = { es := es, name := name }) := by
  have hNew : ∀ (w0 : World σ Doc), (NewIndex lib es name w0).1 = .ret (idx, err) →
      (err ≠ none → idx = { es := none, name := "" })
        ∧ (err = none → idx = { es := es, name := name }) := by
    intro w0 h
    cases es with
    | none => simp [NewIndex] at h
    | some e =>
      simp only [NewIndex] at h
      cases hc : e.client with
      | none =>
        rw [hc] at h
        simp at h
        obtain ⟨h1, h2⟩ := h
        subst h1; subst h2; simp
      | some c =>
        simp only [hc] at h
        rcases hl : lib.createIndex (some c) e.ctx name none w0.server with ⟨o, s⟩
        rw [hl] at h
        rcases o with _ | oe
        · simp at h
        · cases oe with
          | none =>
            simp at h
            obtain ⟨h1, h2⟩ := h
            subst h1; subst h2; simp
          | some x =>
            simp at h
            obtain ⟨h1, h2⟩ := h
            subst h1; subst h2; simp
  rcases hr with hr | hr | hr
  · subst hr
    exact hNew w hret
  · subst hr
    cases es with
    | none => simp [NewIndexMapped] at hret
    | some e =>
      simp only [NewIndexMapped] at hret
      cases hc : e.client with
      | none =>
        rw [hc] at hret
        simp at hret
        obtain ⟨h1, h2⟩ := hret
        subst h1; subst h2; simp
      | some c =>
        simp only [hc] at hret
        rcases hl : lib.createIndex (some c) e.ctx name (some mapping) w.server with ⟨o, s⟩
        rw [hl] at hret
        rcases o with _ | oe
        · simp at hret
        · cases oe with
          | none =>
            simp at hret
            obtain ⟨h1, h2⟩ := hret
            subst h1; subst h2; simp
          | some x =>
            simp at hret
            obtain ⟨h1, h2⟩ := hret
            subst h1; subst h2; simp
  · subst hr
    cases es with
    | none => simp [GetOrCreateIndex] at hret
    | some e =>
      simp only [GetOrCreateIndex] at hret
      cases hc : e.client with
      | none =>
        rw [hc] at hret
        simp at hret
        obtain ⟨h1, h2⟩ := hret
        subst h1; subst h2; simp
      | some c =>
        simp only [hc] at hret
        rcases hl : lib.indexNames (some c) w.server with ⟨o, s⟩
        rw [hl] at hret
        rcases o with _ | ⟨names, oe⟩
        · simp at hret
        · cases oe with
          | some x =>
            simp at hret
            obtain ⟨h1, h2⟩ := hret
            subst h1; subst h2; simp
          | none =>
            by_cases hn : nameListed name names = true
            · simp [hn] at hret
              obtain ⟨h1, h2⟩ := hret
              subst h1; subst h2; simp
            · simp [hn] at hret
              exact hNew _ hret

/-- C10: whenever `NewIndex`, `NewIndexMapped` or `GetOrCreateIndex` returns a non-nil
error, the Index Reference returned with it is the zero value, and `PushId`, `Push` and
`Pull` on that reference return `ErrUnInitializedIndex` and leave the world (server state
and trace of requests) and the output document unchanged; whenever one of them returns a
nil error, the returned reference has the requested name and the receiver as
back-reference. -/
theorem C10_factory_error_gives_zero_reference {σ Doc : Type} (lib : ClientLib σ Doc)
    (J : Json Doc) (es : Option Elastic) (name mapping : String) (w : World σ Doc)
    (r : Outcome (ElasticIndex × Option Error) × World σ Doc)
    (hr : r = NewIndex lib es name w ∨ r = NewIndexMapped lib es name mapping w
      ∨ r = GetOrCreateIndex lib es name w)
    (idx : ElasticIndex) (err : Option Error) (hret : r.1 = .ret (idx, err))
    (id : String) (object out : Doc) (w2 : World σ Doc) :
    (err ≠ none →
        idx = { es := none, name := "" }
        ∧ PushId lib idx id object w2 = (.ret (some .ErrUnInitializedIndex), w2)
        ∧ Push lib idx object w2 = (.ret ("", some .ErrUnInitializedIndex), w2)
        ∧ Pull lib J idx id out w2 = (.ret (false, some .ErrUnInitializedIndex, out), w2))
      ∧ (err = none → idx.name = name ∧ idx.es = es) := by
  obtain ⟨h1, h2⟩ := factory_result_shape lib es name mapping w r hr idx err hret
  refine ⟨fun he => ?_, fun he => ?_⟩
  · rw [h1 he]
    exact ⟨rfl, rfl, rfl, rfl⟩
  · rw [h2 he]
    exact ⟨rfl, rfl⟩

/-- C10 at a concrete input: `NewIndex("books")` on the sample server, where `books`
exists, returns the create-index error with the zero-value reference, on which the three
index operations return `ErrUnInitializedIndex`. -/
theorem C10_factory_error_gives_zero_reference_witness :
    (NewIndex (storeLib boolJson) (some sampleElastic) "books" sampleWorld).1
        = .ret ({ es := none, name := "" },
            some (.foreign ⟨400, "resource_already_exists_exception"⟩))
      ∧ ((some (Error.foreign ⟨400, "resource_already_exists_exception"⟩) ≠ none →
          ({ es := none, name := "" } : ElasticIndex) = { es := none, name := "" }
          ∧ PushId (storeLib boolJson) { es := none, name := "" } "b1" true sampleWorld
            = (.ret (some .ErrUnInitializedIndex), sampleWorld)
          ∧ Push (storeLib boolJson) { es := none, name := "" } true sampleWorld
            = (.ret ("", some .ErrUnInitializedIndex), sampleWorld)
          ∧ Pull (storeLib boolJson) boolJson { es := none, name := "" } "b1" false sampleWorld
            = (.ret (false, some .ErrUnInitializedIndex, false), sampleWorld))
        ∧ (some (Error.foreign ⟨400, "resource_already_exists_exception"⟩) = none →
          ({ es := none, name := "" } : ElasticIndex).name = "books"
          ∧ ({ es := none, name := "" } : ElasticIndex).es = some sampleElastic)) :=
  ⟨by decide,
    C10_factory_error_gives_zero_reference (storeLib boolJson) boolJson (some sampleElastic)
      "books" "" sampleWorld (NewIndex (storeLib boolJson) (some sampleElastic) "books" sampleWorld)
      (Or.inl rfl) { es := none, name := "" }
      (some (.foreign ⟨400, "resource_already_exists_exception"⟩)) (by decide)
      "b1" true false sampleWorld⟩

/-- C3: on an initialized connection, when the list-indices call returns the names `L`
and leaves the server in state `s`.  If `name` occurs in `L`, `GetOrCreateIndex` returns
the reference bound to the connection and `name` with a nil error, the list-indices
request is the only request it issues and the server stays in state `s`.  If `name` does
not occur in `L`, the requests it issues are that one followed by exactly one create-index
request, the server is left in the state the library's create-index call for `name` with
no mapping body, made in state `s`, leaves it in, and the result is the one `NewIndex`
derives from that call: a panic if the call panics, the zero-value reference with the
call's error if it fails, the bound reference with a nil error if it succeeds. -/
theorem C3_GetOrCreateIndex_creates_only_when_absent {σ Doc : Type} (lib : ClientLib σ Doc)
    (ctx : Option Context) (c : Client) (name : String) (L : List String)
    (w : World σ Doc) (s : σ)
    (hL : lib.indexNames (some c) w.server = (.ret (L, none), s)) :
    (name ∈ L →
        GetOrCreateIndex lib (some { ctx := ctx, client := some c }) name w
          = (.ret ({ es := some { ctx := ctx, client := some c }, name := name }, none),
              { server := s, calls := w.calls ++ [.indexNames] }))
      ∧ (name ∉ L →
        GetOrCreateIndex lib (some { ctx := ctx, client := some c }) name w
          = NewIndex lib (some { ctx := ctx, client := some c }) name
              { server := s, calls := w.calls ++ [.indexNames] }
        ∧ (GetOrCreateIndex lib (some { ctx := ctx, client := some c }) name w).2
          = { server := (lib.createIndex (some c) ctx name none s).2,
              calls := w.calls ++ [.indexNames, .createIndex name none] }
        ∧ ((lib.createIndex (some c) ctx name none s).1 = .panic →
            (GetOrCreateIndex lib (some { ctx := ctx, client := some c }) name w).1 = .panic)
        ∧ (∀ err, (lib.createIndex (some c) ctx name none s).1 = .ret (some err) →
            (GetOrCreateIndex lib (some { ctx := ctx, client := some c }) name w).1
              = .ret ({ es := none, name := "" }, some (.foreign err)))
        ∧ ((lib.createIndex (some c) ctx name none s).1 = .ret none →
            (GetOrCreateIndex lib (some { ctx := ctx, client := some c }) name w).1
              = .ret ({ es := some { ctx := ctx, client := some c }, name := name },
                  none))) := by
  constructor
  · intro hmem
    have hn : nameListed name L = true := (nameListed_iff name L).2 hmem
    simp [GetOrCreateIndex, hL, hn, World.issue]
  · intro hmem
    have hn : ¬ nameListed name L = true := fun h => hmem ((nameListed_iff name L).1 h)
    have heq : GetOrCreateIndex lib (some { ctx := ctx, client := some c }) name w
        = NewIndex lib (some { ctx := ctx, client := some c }) name
            { server := s, calls := w.calls ++ [.indexNames] } := by
      simp [GetOrCreateIndex, hL, hn, World.issue]
    refine ⟨heq, ?_⟩
    rw [heq]
    simp only [NewIndex, World.issue]
    rcases hl : lib.createIndex (some c) ctx name none s with ⟨o, t⟩
    rcases o with _ | oe
    · simp
    · cases oe <;> simp

/-- C3 at two concrete inputs on the sample server, which lists `books`:
`GetOrCreateIndex("books")` issues the list request only and leaves the server alone;
`GetOrCreateIndex("films")` issues the list request and one create request, after which
the server lists `films` too. -/
theorem C3_GetOrCreateIndex_creates_only_when_absent_witness :
    (storeLib boolJson).indexNames (some ⟨"http://1.2.3.4:9200"⟩) sampleWorld.server
        = (.ret (["books"], none), sampleStore)
      ∧ GetOrCreateIndex (storeLib boolJson) (some sampleElastic) "books" sampleWorld
        = (.ret ({ es := some sampleElastic, name := "books" }, none),
            { server := sampleStore, calls := [.indexNames] })
      ∧ (GetOrCreateIndex (storeLib boolJson) (some sampleElastic) "films" sampleWorld).2
        = { server := { indices := ["books", "films"], docs := sampleStore.docs, nextId := 7 },
            calls := [.indexNames, .createIndex "films" none] }
      ∧ (GetOrCreateIndex (storeLib boolJson) (some sampleElastic) "films" sampleWorld).1
        = .ret ({ es := some sampleElastic, name := "films" }, none) :=
  ⟨rfl,
    (C3_GetOrCreateIndex_creates_only_when_absent (storeLib boolJson) (some ⟨0⟩)
      ⟨"http://1.2.3.4:9200"⟩ "books" ["books"] sampleWorld sampleStore rfl).1 (by decide),
    ((C3_GetOrCreateIndex_creates_only_when_absent (storeLib boolJson) (some ⟨0⟩)
      ⟨"http://1.2.3.4:9200"⟩ "films" ["books"] sampleWorld sampleStore rfl).2
        (by decide)).2.1,
    ((C3_GetOrCreateIndex_creates_only_when_absent (storeLib boolJson) (some ⟨0⟩)
      ⟨"http://1.2.3.4:9200"⟩ "films" ["books"] sampleWorld sampleStore rfl).2
        (by decide)).2.2.2.2 rfl⟩

/-- C4: on an initialized Index Reference, if the fetch returns an error that the library
classifies as not-found, or returns no error and a result whose found flag is false,
`Pull` returns `(false, nil)`, and the output document is untouched. -/
theorem C4_Pull_not_found_is_not_an_error {σ Doc : Type} (lib : ClientLib σ Doc)
    (J : Json Doc) (e : Elastic) (name id : String) (out : Doc) (w : World σ Doc)
    (r : Option GetResult) (err : Option LibError) (s : σ)
    (hget : lib.get e.client e.ctx name id w.server = (.ret (r, err), s))
    (hnf : (∃ x, err = some x ∧ lib.isNotFound x = true)
      ∨ (err = none ∧ ∃ g, r = some g ∧ g.Found = false)) :
    Pull lib J { es := some e, name := name } id out w
      = (.ret (false, none, out), w.issue (.get name id) s) := by
  rcases hnf with ⟨x, hx, hx2⟩ | ⟨he, g, hg, hf⟩
  · subst hx
    simp [Pull, hget, IsNotFound, hx2]
  · subst he; subst hg
    simp [Pull, hget, IsNotFound, hf]

/-- C4 at a concrete input: fetching the id `b9`, under which the sample server stores
nothing, gives `(false, nil)`. -/
theorem C4_Pull_not_found_is_not_an_error_witness :
    (storeLib boolJson).get sampleElastic.client sampleElastic.ctx "books" "b9"
        sampleWorld.server = (.ret (none, some ⟨404, "not_found"⟩), sampleStore)
      ∧ Pull (storeLib boolJson) boolJson { es := some sampleElastic, name := "books" } "b9"
          true sampleWorld
        = (.ret (false, none, true), sampleWorld.issue (.get "books" "b9") sampleStore) :=
  ⟨rfl,
    C4_Pull_not_found_is_not_an_error (storeLib boolJson) boolJson sampleElastic "books" "b9"
      true sampleWorld none (some ⟨404, "not_found"⟩) sampleStore rfl
      (Or.inl ⟨⟨404, "not_found"⟩, rfl, by decide⟩)⟩

/-- C6: on an initialized Index Reference, if the fetch returns no error and a result
whose found flag is true, `Pull` returns `(true, r)` where `r` is exactly the error of
unmarshaling the stored source into the output document; in particular a source that
fails to unmarshal with error `x` gives `(true, x)`. -/
theorem C6_Pull_found_returns_unmarshal_result {σ Doc : Type} (lib : ClientLib σ Doc)
    (J : Json Doc) (e : Elastic) (name id : String) (out : Doc) (w : World σ Doc)
    (g : GetResult) (s : σ)
    (hget : lib.get e.client e.ctx name id w.server = (.ret (some g, none), s))
    (hfound : g.Found = true) :
    Pull lib J { es := some e, name := name } id out w
        = (.ret (true, (J.Unmarshal g.Source out).2.map Error.foreign,
            (J.Unmarshal g.Source out).1), w.issue (.get name id) s)
      ∧ ∀ x, (J.Unmarshal g.Source out).2 = some x →
          (Pull lib J { es := some e, name := name } id out w).1
            = .ret (true, some (.foreign x), (J.Unmarshal g.Source out).1) := by
  have h : Pull lib J { es := some e, name := name } id out w
      = (.ret (true, (J.Unmarshal g.Source out).2.map Error.foreign,
          (J.Unmarshal g.Source out).1), w.issue (.get name id) s) := by
    simp [Pull, hget, IsNotFound, hfound]
  refine ⟨h, fun x hx => ?_⟩
  rw [h, hx]
  rfl

/-- C6 at a concrete input: the sample server stores the JSON array `[1]` under `b2`,
which does not unmarshal into a boolean document; `Pull` returns found `true` together
with the unmarshal error. -/
theorem C6_Pull_found_returns_unmarshal_result_witness :
    (storeLib boolJson).get sampleElastic.client sampleElastic.ctx "books" "b2"
        sampleWorld.server = (.ret (some ⟨true, "[1]"⟩, none), sampleStore)
      ∧ (Pull (storeLib boolJson) boolJson { es := some sampleElastic, name := "books" } "b2"
          true sampleWorld).1
        = .ret (true,
            some (.foreign ⟨0, "json: cannot unmarshal into Go value of type bool"⟩), true) :=
  ⟨rfl,
    (C6_Pull_found_returns_unmarshal_result (storeLib boolJson) boolJson sampleElastic "books"
      "b2" true sampleWorld ⟨true, "[1]"⟩ sampleStore rfl rfl).2
      ⟨0, "json: cannot unmarshal into Go value of type bool"⟩ (by decide)⟩

/-- C8: on an initialized Index Reference, if the fetch returns an error `x` that the
library does not classify as not-found, `Pull` returns `(false, x)` with `x` unchanged,
and, whatever the JSON codec, the output document is the one passed in. -/
theorem C8_Pull_passes_fetch_error_through {σ Doc : Type} (lib : ClientLib σ Doc)
    (J : Json Doc) (e : Elastic) (name id : String) (out : Doc) (w : World σ Doc)
    (r : Option GetResult) (x : LibError) (s : σ)
    (hget : lib.get e.client e.ctx name id w.server = (.ret (r, some x), s))
    (hother : lib.isNotFound x = false) :
    Pull lib J { es := some e, name := name } id out w
      = (.ret (false, some (.foreign x), out), w.issue (.get name id) s) := by
  simp [Pull, hget, IsNotFound, hother]

/-- C8 at a concrete input: against an unreachable server the transport error comes back
from `Pull` as it is. -/
theorem C8_Pull_passes_fetch_error_through_witness :
    (downLib : ClientLib Unit Bool).get sampleElastic.client sampleElastic.ctx "books" "b1" ()
        = (.ret (none, some ⟨0, "connection refused"⟩), ())
      ∧ Pull downLib boolJson { es := some sampleElastic, name := "books" } "b1" false
          { server := (), calls := [] }
        = (.ret (false, some (.foreign ⟨0, "connection refused"⟩), false),
            { server := (), calls := [.get "books" "b1"] }) :=
  ⟨rfl,
    C8_Pull_passes_fetch_error_through downLib boolJson sampleElastic "books" "b1" false
      { server := (), calls := [] } none ⟨0, "connection refused"⟩ () rfl (by decide)⟩

/-- On the reference server, a body just stored under `(index, id)` is the one a lookup
of `(index, id)` finds. -/
theorem lookupDoc_putDoc (index id : String) (b : RawMessage)
    (docs : List (String × String × RawMessage)) :
    lookupDoc index id (putDoc index id b docs) = some b := by
  simp [putDoc, lookupDoc]

/-- A generated id is never the empty string. -/
theorem genId_ne_empty (n : Nat) : genId n ≠ "" := by
  intro h
  have hlen := congrArg String.length h
  simp only [genId, String.length_append] at hlen
  have h5 : "auto-".length = 5 := by decide
  rw [h5] at hlen
  have h0 : "".length = 0 := by decide
  rw [h0] at hlen
  omega

/-- What `Push` does on the reference server for a document that marshals to `b`, on an
initialized reference with a non-empty index name: it returns the generated id. -/
theorem Push_storeLib {Doc : Type} (J : Json Doc) (k : Context) (c : Client)
    (name : String) (D : Doc) (b : RawMessage) (w : World Store Doc)
    (hname : name ≠ "") (hm : J.Marshal D = some b) :
    Push (storeLib J) { es := some { ctx := some k, client := some c }, name := name } D w
      = (.ret (genId w.server.nextId, none),
          { server := { indices := touchIndex name w.server.indices,
                        docs := putDoc name (genId w.server.nextId) b w.server.docs,
                        nextId := w.server.nextId + 1 },
            calls := w.calls ++ [.index name none D] }) := by
  simp [Push, storeLib, hm, hname, requestedId, World.issue]

/-- What `PushId` does on the reference server for a non-empty id and a document that
marshals to `b`, on an initialized reference with a non-empty index name: it returns nil
and the body is stored under the id. -/
theorem PushId_storeLib {Doc : Type} (J : Json Doc) (k : Context) (c : Client)
    (name id : String) (D : Doc) (b : RawMessage) (w : World Store Doc)
    (hname : name ≠ "") (hid : id ≠ "") (hm : J.Marshal D = some b) :
    PushId (storeLib J) { es := some { ctx := some k, client := some c }, name := name }
        id D w
      = (.ret none,
          { server := { indices := touchIndex name w.server.indices,
                        docs := putDoc name id b w.server.docs,
                        nextId := w.server.nextId },
            calls := w.calls ++ [.index name (some id) D] }) := by
  simp [PushId, storeLib, hm, hname, hid, requestedId, World.issue]

/-- What `Pull` does on the reference server when the body `b` was just stored under a
non-empty id: found is `true`, the error and the output document are those of
unmarshaling `b` into the output document. -/
theorem Pull_storeLib_after_put {Doc : Type} (J : Json Doc) (k : Context) (c : Client)
    (name id : String) (out : Doc) (b : RawMessage) (indices : List String)
    (docs : List (String × String × RawMessage)) (n : Nat) (calls : List (Call Doc))
    (hname : name ≠ "") (hid : id ≠ "") :
    Pull (storeLib J) J { es := some { ctx := some k, client := some c }, name := name }
        id out
        { server := { indices := indices, docs := putDoc name id b docs, nextId := n },
          calls := calls }
      = (.ret (true, (J.Unmarshal b out).2.map Error.foreign, (J.Unmarshal b out).1),
          { server := { indices := indices, docs := putDoc name id b docs, nextId := n },
            calls := calls ++ [.get name id] }) := by
  simp [Pull, storeLib, hname, hid, lookupDoc_putDoc, IsNotFound, World.issue]

/-- The result `(true, nil, D)` is the result `(true, e, o)` of an unmarshal exactly when
the unmarshal returned `(D, nil)`. -/
theorem found_result_eq_iff {Doc : Type} (r : Doc × Option LibError) (D : Doc) :
    (Outcome.ret (true, r.2.map Error.foreign, r.1) : Outcome (Bool × Option Error × Doc))
        = .ret (true, none, D) ↔ r = (D, none) := by
  rcases r with ⟨o, e⟩
  cases e <;> simp

/-- C5 as stated fails: with the codec of a struct whose zero field is omitted from the
JSON text, pushing the document with field 0 returns `(auto-7, nil)`, and pulling that id
into an output document whose field is 1 returns `(true, nil)` but leaves the field at 1:
the output document is not the pushed one. -/
theorem C5_round_trip_fails_into_used_output :
    readingJson.Marshal .zero = some "\x7b\x7d"
      ∧ (Push (storeLib readingJson) { es := some sampleElastic, name := "levels" } .zero
          readingWorld).1 = .ret ("auto-7", none)
      ∧ (Pull (storeLib readingJson) readingJson
          { es := some sampleElastic, name := "levels" } "auto-7" .one
          (Push (storeLib readingJson) { es := some sampleElastic, name := "levels" } .zero
            readingWorld).2).1 = .ret (true, none, .one)
      ∧ (Pull (storeLib readingJson) readingJson
          { es := some sampleElastic, name := "levels" } "auto-7" .one
          (Push (storeLib readingJson) { es := some sampleElastic, name := "levels" } .zero
            readingWorld).2).1 ≠ .ret (true, none, .zero) := by
  decide

/-- C5 (amended): over the reference server, on an initialized Index Reference and for a
document `D` that marshals to `b`: whenever `Push(D)` returns `(id, nil)`, the following
`Pull(id, out)` issues one get request, returns found `true` and has exactly the error
and the output document of unmarshaling `b` into `out`; so it returns `(true, nil)` with
`D` in the output document exactly when `b` unmarshals into `out` as `D` without error.
When the index name is not empty, `Push(D)` does return a generated id with a nil
error. -/
theorem C5_push_then_pull_round_trip {Doc : Type} (J : Json Doc) (k : Context)
    (c : Client) (name : String) (D out : Doc) (b : RawMessage) (w : World Store Doc)
    (hm : J.Marshal D = some b) :
    (∀ id w1,
        Push (storeLib J) { es := some { ctx := some k, client := some c }, name := name } D w
          = (.ret (id, none), w1) →
        Pull (storeLib J) J { es := some { ctx := some k, client := some c }, name := name }
            id out w1
          = (.ret (true, (J.Unmarshal b out).2.map Error.foreign, (J.Unmarshal b out).1),
              { server := w1.server, calls := w1.calls ++ [.get name id] })
        ∧ ((Pull (storeLib J) J
              { es := some { ctx := some k, client := some c }, name := name } id out w1).1
            = .ret (true, none, D) ↔ J.Unmarshal b out = (D, none)))
      ∧ (name ≠ "" → ∃ id w1,
        Push (storeLib J) { es := some { ctx := some k, client := some c }, name := name } D w
          = (.ret (id, none), w1)) := by
  constructor
  · intro id w1 h
    by_cases hname : name = ""
    · simp [Push, storeLib, hname] at h
    · rw [Push_storeLib J k c name D b w hname hm] at h
      simp only [Prod.mk.injEq, Outcome.ret.injEq] at h
      obtain ⟨⟨hid, -⟩, hw⟩ := h
      subst hid; subst hw
      have hp := Pull_storeLib_after_put J k c name (genId w.server.nextId) out b
        (touchIndex name w.server.indices) w.server.docs (w.server.nextId + 1)
        (w.calls ++ [.index name none D]) hname (genId_ne_empty _)
      refine ⟨hp, ?_⟩
      rw [hp]
      exact found_result_eq_iff (J.Unmarshal b out) D
  · intro hname
    exact ⟨_, _, Push_storeLib J k c name D b w hname hm⟩

/-- C5 (amended) at a concrete input: pushing the boolean document `true` to the sample
server returns the generated id `auto-7`, and pulling `auto-7` into a document that holds
`false` gives `(true, nil)` and the document `true`. -/
theorem C5_push_then_pull_round_trip_witness :
    boolJson.Marshal true = some "true"
      ∧ boolJson.Unmarshal "true" false = (true, none)
      ∧ (Push (storeLib boolJson) { es := some sampleElastic, name := "books" } true
          sampleWorld).1 = .ret ("auto-7", none)
      ∧ (Pull (storeLib boolJson) boolJson { es := some sampleElastic, name := "books" }
          "auto-7" false
          (Push (storeLib boolJson) { es := some sampleElastic, name := "books" } true
            sampleWorld).2).1 = .ret (true, none, true) :=
  ⟨rfl, rfl, by decide,
    (((C5_push_then_pull_round_trip boolJson ⟨0⟩ ⟨"http://1.2.3.4:9200"⟩ "books" true
        false "true" sampleWorld rfl).1 "auto-7"
        (Push (storeLib boolJson) { es := some sampleElastic, name := "books" } true
          sampleWorld).2 rfl).2).2 rfl⟩

/-- C7 as stated fails, at four inputs on the reference server.  With the empty id both
`PushId` calls return nil (each is an index request without id) and `Pull` is refused with
an error.  With the empty index name `PushId` is refused with an error.  A document that
does not marshal (NaN field) makes `PushId` return the error.  With the codec of a struct
whose zero field is omitted from the JSON text, `PushId` of field 1 and then of field 0
both return nil, and `Pull` into an output document whose field is 1 returns `(true, nil)`
but leaves the field at 1, not the second payload. -/
theorem C7_overwrite_fails_at_empty_id_and_used_output :
    ((PushId (storeLib boolJson) { es := some sampleElastic, name := "books" } "" true
          sampleWorld).1 = .ret none
      ∧ (PushId (storeLib boolJson) { es := some sampleElastic, name := "books" } "" false
          (PushId (storeLib boolJson) { es := some sampleElastic, name := "books" } "" true
            sampleWorld).2).1 = .ret none
      ∧ (Pull (storeLib boolJson) boolJson { es := some sampleElastic, name := "books" } ""
          true
          (PushId (storeLib boolJson) { es := some sampleElastic, name := "books" } "" false
            (PushId (storeLib boolJson) { es := some sampleElastic, name := "books" } "" true
              sampleWorld).2).2).1
        = .ret (false, some (.foreign ⟨0, "missing required fields: [Id]"⟩), true))
    ∧ (PushId (storeLib boolJson) { es := some sampleElastic, name := "" } "b1" true
          sampleWorld).1
        = .ret (some (.foreign ⟨0, "missing required fields: [Index]"⟩))
    ∧ (PushId (storeLib readingJson) { es := some sampleElastic, name := "levels" } "r1"
          .nan readingWorld).1
        = .ret (some (.foreign ⟨0, "json: unsupported value"⟩))
    ∧ ((PushId (storeLib readingJson) { es := some sampleElastic, name := "levels" } "r1"
          .one readingWorld).1 = .ret none
      ∧ (PushId (storeLib readingJson) { es := some sampleElastic, name := "levels" } "r1"
          .zero
          (PushId (storeLib readingJson) { es := some sampleElastic, name := "levels" } "r1"
            .one readingWorld).2).1 = .ret none
      ∧ (Pull (storeLib readingJson) readingJson
          { es := some sampleElastic, name := "levels" } "r1" .one
          (PushId (storeLib readingJson) { es := some sampleElastic, name := "levels" } "r1"
            .zero
            (PushId (storeLib readingJson) { es := some sampleElastic, name := "levels" }
              "r1" .one readingWorld).2).2).1 = .ret (true, none, .one)) := by
  decide

/-- C7 (amended): over the reference server, on an initialized Index Reference with a
non-empty index name, for a non-empty id and two documents `D1`, `D2` that marshal to `b1`
and `b2`: `PushId(id, D1)` and then `PushId(id, D2)` both return nil, and the following
`Pull(id, out)` returns found `true` with exactly the error and the output document of
unmarshaling `b2`, the second payload, into `out`; so it returns `(true, nil)` with `D2`
in the output document exactly when `b2` unmarshals into `out` as `D2` without error. -/
theorem C7_PushId_twice_overwrites {Doc : Type} (J : Json Doc) (k : Context)
    (c : Client) (name id : String) (D1 D2 out : Doc) (b1 b2 : RawMessage)
    (w : World Store Doc) (hname : name ≠ "") (hid : id ≠ "")
    (hm1 : J.Marshal D1 = some b1) (hm2 : J.Marshal D2 = some b2) :
    (PushId (storeLib J) { es := some { ctx := some k, client := some c }, name := name }
        id D1 w).1 = .ret none
      ∧ (PushId (storeLib J) { es := some { ctx := some k, client := some c }, name := name }
          id D2
          (PushId (storeLib J)
            { es := some { ctx := some k, client := some c }, name := name } id D1 w).2).1
        = .ret none
      ∧ (Pull (storeLib J) J { es := some { ctx := some k, client := some c }, name := name }
          id out
          (PushId (storeLib J)
            { es := some { ctx := some k, client := some c }, name := name } id D2
            (PushId (storeLib J)
              { es := some { ctx := some k, client := some c }, name := name }
              id D1 w).2).2).1
        = .ret (true, (J.Unmarshal b2 out).2.map Error.foreign, (J.Unmarshal b2 out).1)
      ∧ ((Pull (storeLib J) J
            { es := some { ctx := some k, client := some c }, name := name } id out
            (PushId (storeLib J)
              { es := some { ctx := some k, client := some c }, name := name } id D2
              (PushId (storeLib J)
                { es := some { ctx := some k, client := some c }, name := name }
                id D1 w).2).2).1
          = .ret (true, none, D2) ↔ J.Unmarshal b2 out = (D2, none)) := by
  rw [PushId_storeLib J k c name id D1 b1 w hname hid hm1,
    PushId_storeLib J k c name id D2 b2 _ hname hid hm2]
  simp only []
  rw [Pull_storeLib_after_put J k c name id out b2 _ _ _ _ hname hid]
  exact ⟨trivial, trivial, rfl, found_result_eq_iff (J.Unmarshal b2 out) D2⟩

/-- C7 (amended) at a concrete input: on the sample server, `PushId("b1", true)` then
`PushId("b1", false)` both return nil and `Pull("b1")` yields `(true, nil)` and the
document `false`. -/
theorem C7_PushId_twice_overwrites_witness :
    "books" ≠ "" ∧ "b1" ≠ ""
      ∧ boolJson.Marshal true = some "true"
      ∧ boolJson.Marshal false = some "false"
      ∧ boolJson.Unmarshal "false" true = (false, none)
      ∧ (PushId (storeLib boolJson) { es := some sampleElastic, name := "books" }
          "b1" true sampleWorld).1 = .ret none
      ∧ (PushId (storeLib boolJson) { es := some sampleElastic, name := "books" } "b1" false
          (PushId (storeLib boolJson) { es := some sampleElastic, name := "books" }
            "b1" true sampleWorld).2).1 = .ret none
      ∧ (Pull (storeLib boolJson) boolJson { es := some sampleElastic, name := "books" }
          "b1" true
          (PushId (storeLib boolJson) { es := some sampleElastic, name := "books" } "b1" false
            (PushId (storeLib boolJson) { es := some sampleElastic, name := "books" }
              "b1" true sampleWorld).2).2).1 = .ret (true, none, false) :=
  ⟨by decide, by decide, rfl, rfl, rfl,
    (C7_PushId_twice_overwrites boolJson ⟨0⟩ ⟨"http://1.2.3.4:9200"⟩ "books" "b1" true
      false true "true" "false" sampleWorld (by decide) (by decide) rfl rfl).1,
    (C7_PushId_twice_overwrites boolJson ⟨0⟩ ⟨"http://1.2.3.4:9200"⟩ "books" "b1" true
      false true "true" "false" sampleWorld (by decide) (by decide) rfl rfl).2.1,
    (C7_PushId_twice_overwrites boolJson ⟨0⟩ ⟨"http://1.2.3.4:9200"⟩ "books" "b1" true
      false true "true" "false" sampleWorld (by decide) (by decide) rfl rfl).2.2.2.2 rfl⟩

end Elq
